import Mathlib

/-!
Shallow embedding of the `mut_tracker` crate (src/src/lib.rs, src/src/sentinel.rs).

Addresses are modelled as natural numbers below `WORD = 2 ^ 64` (the `usize`
range of the 64-bit target the crate's pointer arithmetic runs on).  The Rust
code casts pointers to `isize`, subtracts, and reinterprets the result as
`usize`; the net effect of that pipeline is subtraction modulo `2 ^ 64`, which
`usizeSub` captures.  Operations that can panic (`NonZeroUsize::new(..)
.unwrap()`) return `Option`, with `none` for the panic.  The uninitialized key
snapshot written by `mem::uninitialized()` is modelled as `Option K` with
`none` for "uninitialized"; reading it is the undefined behaviour the code's
comment promises to avoid, and surfaces as a `none` result.

Since a sentinel never knows its own address, every operation that the Rust
code evaluates against `&self` takes the sentinel's current address as an
explicit parameter; relocation of the storage is then modelled as querying the
same (bit-identical) state at a different address, exactly as the crate's
design document describes the mechanism.
-/

/-- The `usize` modulus of the 64-bit target: `2 ^ 64`. -/
def WORD : Nat := 18446744073709551616

/-- Wrapping pointer subtraction `x - y` performed as `as isize` subtraction
followed by an `as usize` reinterpretation: subtraction modulo `WORD`. -/
def usizeSub (x y : Nat) : Nat := (x % WORD + (WORD - y % WORD)) % WORD

/-- The address produced by `NonNull::dangling()` for `MoveMutSentinel<K>`:
the alignment of the type, which is 8 on the 64-bit target (the struct holds a
single pointer-sized cell).  It is the guaranteed-invalid placeholder: no live
sentinel is ever allocated there. -/
def danglingAddr : Nat := 8

/-- `MoveMutSentinel<K>` (src/src/sentinel.rs): a single address-sized cell
`self_ptr` remembering an address, plus the phantom capability type `K`. -/
structure MoveMutSentinel (K : Type) where
  self_ptr : Nat

/-- `MoveMutSentinel::mutated()`: constructs with `NonNull::dangling()` in the
cell. -/
def MoveMutSentinel.mutated (K : Type) : MoveMutSentinel K :=
  ⟨danglingAddr⟩

/-- `MoveMutSentinel::was_moved_or_mutated(&self)`, evaluated while the
sentinel resides at address `a`: true iff the stored address differs from
`&self`. -/
def MoveMutSentinel.was_moved_or_mutated (s : MoveMutSentinel K) (a : Nat) : Bool :=
  decide (s.self_ptr ≠ a)

/-- `MoveMutSentinel::set_mutated(&self)`: overwrites the cell with the
placeholder taken from a fresh `Self::mutated()`. -/
def MoveMutSentinel.set_mutated (s : MoveMutSentinel K) : MoveMutSentinel K :=
  ⟨(MoveMutSentinel.mutated K).self_ptr⟩

/-- `MoveMutSentinel::set_unmutated(&self, _key: K)`, evaluated while the
sentinel resides at address `a`: stores `&self` into the cell; the key is
consumed and discarded. -/
def MoveMutSentinel.set_unmutated (s : MoveMutSentinel K) (k : K) (a : Nat) :
    MoveMutSentinel K :=
  ⟨a⟩

/-- `MoveMutSentinel::change_key::<NK>(self)`: re-parameterizes the phantom
type, casting the stored pointer bits unchanged. -/
def MoveMutSentinel.change_key (s : MoveMutSentinel K) (NK : Type) : MoveMutSentinel NK :=
  ⟨s.self_ptr⟩

/-- `Clone for MoveMutSentinel`: `self_ptr.clone()` copies the stored bits
verbatim. -/
def MoveMutSentinel.clone (s : MoveMutSentinel K) : MoveMutSentinel K :=
  ⟨s.self_ptr⟩

/-- Byte offset of the `key` field inside `MoveRelMutSentinel` under
`#[repr(C)]`: `key` follows the pointer-sized `anchor_key_offset`, so it sits
8 bytes after it. -/
def ANCHOR_BYTES : Nat := 8

/-- Address of the internal `key` field of a `MoveRelMutSentinel` whose
`anchor_key_offset` field (its first field) sits at address `a`. -/
def keyFieldAddr (a : Nat) : Nat := (a + ANCHOR_BYTES) % WORD

/-- `MoveRelMutSentinel<K>` (src/src/sentinel.rs): the remembered nonzero
offset (stored as its `usize` bits) and the key snapshot, `none` while the
snapshot is still the `mem::uninitialized()` garbage. -/
structure MoveRelMutSentinel (K : Type) where
  anchor_key_offset : Nat
  key : Option K

/-- `MoveRelMutSentinel::offset_of(&self, ref_key)` with the sentinel's
`anchor_key_offset` field at address `a` and `ref_key` at address `r`:
`NonZeroUsize::new(a - r).unwrap()`, `none` modelling the panic on zero. -/
def MoveRelMutSentinel.offset_of (a r : Nat) : Option Nat :=
  let o := usizeSub a r
  if o = 0 then none else some o

/-- `MoveRelMutSentinel::self_offset(&self)` with the sentinel at address `a`:
the offset from its own anchor field to its own key field. -/
def MoveRelMutSentinel.self_offset (a : Nat) : Option Nat :=
  MoveRelMutSentinel.offset_of a (keyFieldAddr a)

/-- `MoveRelMutSentinel::mutated()`, with the constructed temporary residing
at address `atmp`: stores `self_offset` (computed on the temporary) in the
offset cell and leaves the key snapshot uninitialized. -/
def MoveRelMutSentinel.mutated (K : Type) (atmp : Nat) : Option (MoveRelMutSentinel K) :=
  (MoveRelMutSentinel.self_offset atmp).map (fun o => ⟨o, none⟩)

/-- `MoveRelMutSentinel::was_moved_or_mutated(&self, key)` with the sentinel
at address `a`, `ref_key` at address `r` holding value `k`, and `beq` the
`PartialEq` implementation of `K`: short-circuits to `true` when the stored
offset disagrees with the current one; only otherwise reads the snapshot
(a `none` snapshot read surfaces as `none`). -/
def MoveRelMutSentinel.was_moved_or_mutated (s : MoveRelMutSentinel K)
    (beq : K → K → Bool) (a r : Nat) (k : K) : Option Bool :=
  (MoveRelMutSentinel.offset_of a r).bind (fun o =>
    if s.anchor_key_offset ≠ o then some true
    else s.key.map (fun sk => !(beq sk k)))

/-- `MoveRelMutSentinel::set_mutated(&self)` with the sentinel at address `a`:
resets the offset cell to the distinguished self-relative offset; the snapshot
cell is untouched. -/
def MoveRelMutSentinel.set_mutated (s : MoveRelMutSentinel K) (a : Nat) :
    Option (MoveRelMutSentinel K) :=
  (MoveRelMutSentinel.self_offset a).map (fun o => ⟨o, s.key⟩)

/-- `MoveRelMutSentinel::set_unmutated(&self, key)` with the sentinel at
address `a` and `ref_key` at address `r` holding `k`: snapshots the key, then
stores the current offset. -/
def MoveRelMutSentinel.set_unmutated (s : MoveRelMutSentinel K) (a r : Nat) (k : K) :
    Option (MoveRelMutSentinel K) :=
  (MoveRelMutSentinel.offset_of a r).map (fun o => ⟨o, some k⟩)

/-- `MoveMutTracker<T, K>` (src/src/lib.rs): the wrapped value plus the
absolute sentinel. -/
structure MoveMutTracker (T K : Type) where
  value : T
  sentinel : MoveMutSentinel K

/-- `MoveMutTracker::new(value)`: wraps the value with a fresh dirty
sentinel. -/
def MoveMutTracker.new (T K : Type) (v : T) : MoveMutTracker T K :=
  ⟨v, MoveMutSentinel.mutated K⟩

/-- `MoveMutTracker::was_moved_or_mutated(this)` with the embedded sentinel
residing at address `a`. -/
def MoveMutTracker.was_moved_or_mutated (t : MoveMutTracker T K) (a : Nat) : Bool :=
  t.sentinel.was_moved_or_mutated a

/-- `MoveMutTracker::set_unmutated(this, _key)` with the sentinel at
address `a`. -/
def MoveMutTracker.set_unmutated (t : MoveMutTracker T K) (k : K) (a : Nat) :
    MoveMutTracker T K :=
  ⟨t.value, t.sentinel.set_unmutated k a⟩

/-- `MoveMutTracker::change_key::<NK>(this)`: moves the value and re-keys the
sentinel. -/
def MoveMutTracker.change_key (t : MoveMutTracker T K) (NK : Type) : MoveMutTracker T NK :=
  ⟨t.value, t.sentinel.change_key NK⟩

/-- `Deref::deref` for `MoveMutTracker`: returns the value, no side effect. -/
def MoveMutTracker.deref (t : MoveMutTracker T K) : T :=
  t.value

/-- `DerefMut::deref_mut` for `MoveMutTracker`: unconditionally calls
`sentinel.set_mutated()` and hands out the value reachable through the
returned mutable reference, paired with the tracker state after the side
effect. -/
def MoveMutTracker.deref_mut (t : MoveMutTracker T K) : T × MoveMutTracker T K :=
  (t.value, ⟨t.value, t.sentinel.set_mutated⟩)

/-- A store through the mutable reference obtained from `deref_mut`: writes
the value slot only; the sentinel was already handled by `deref_mut`. -/
def MoveMutTracker.store (t : MoveMutTracker T K) (v : T) : MoveMutTracker T K :=
  ⟨v, t.sentinel⟩

/-- `Clone::clone for MoveMutTracker`: clones the value and copies the
sentinel's stored bits verbatim. -/
def MoveMutTracker.clone (t : MoveMutTracker T K) : MoveMutTracker T K :=
  ⟨t.value, t.sentinel.clone⟩

/-- `Clone::clone_from for MoveMutTracker`: marks the destination sentinel
mutated, then clones the source's value into the destination. -/
def MoveMutTracker.clone_from (t src : MoveMutTracker T K) : MoveMutTracker T K :=
  ⟨src.value, t.sentinel.set_mutated⟩

/-- `MoveRelMutTracker<T, K>` (src/src/lib.rs): the wrapped value plus the
relative sentinel. -/
structure MoveRelMutTracker (T K : Type) where
  value : T
  sentinel : MoveRelMutSentinel K

/-- `MoveRelMutTracker::new(value)`, with the freshly constructed sentinel
temporary at address `atmp`. -/
def MoveRelMutTracker.new (T K : Type) (v : T) (atmp : Nat) :
    Option (MoveRelMutTracker T K) :=
  (MoveRelMutSentinel.mutated K atmp).map (fun s => ⟨v, s⟩)

/-- `MoveRelMutTracker::was_moved_or_mutated(this, key)` with the sentinel at
address `a` and the reference key at address `r` holding `k`. -/
def MoveRelMutTracker.was_moved_or_mutated (t : MoveRelMutTracker T K)
    (beq : K → K → Bool) (a r : Nat) (k : K) : Option Bool :=
  t.sentinel.was_moved_or_mutated beq a r k

/-- `MoveRelMutTracker::set_unmutated(this, key)` with the sentinel at
address `a` and the reference key at address `r` holding `k`. -/
def MoveRelMutTracker.set_unmutated (t : MoveRelMutTracker T K) (a r : Nat) (k : K) :
    Option (MoveRelMutTracker T K) :=
  (t.sentinel.set_unmutated a r k).map (fun s => ⟨t.value, s⟩)

/-- `DerefMut::deref_mut` for `MoveRelMutTracker`, with the sentinel at
address `a`: unconditionally calls `sentinel.set_mutated()` and hands out the
value, paired with the tracker state after the side effect. -/
def MoveRelMutTracker.deref_mut (t : MoveRelMutTracker T K) (a : Nat) :
    Option (T × MoveRelMutTracker T K) :=
  (t.sentinel.set_mutated a).map (fun s => (t.value, (⟨t.value, s⟩ : MoveRelMutTracker T K)))

/-- A store through the mutable reference obtained from
`MoveRelMutTracker.deref_mut`: writes the value slot only. -/
def MoveRelMutTracker.store (t : MoveRelMutTracker T K) (v : T) : MoveRelMutTracker T K :=
  ⟨v, t.sentinel⟩

/-- `Clone::clone_from for MoveRelMutTracker`, with the destination sentinel
at address `a`: marks it mutated, then clones the source's value. -/
def MoveRelMutTracker.clone_from (t src : MoveRelMutTracker T K) (a : Nat) :
    Option (MoveRelMutTracker T K) :=
  (t.sentinel.set_mutated a).map (fun s => ⟨src.value, s⟩)

/-- Modelled from the spec: the Plain Dirty-Flag Cell of §4.1 / §2(1) is
described by the spec but absent from src/ (only the capability-gated sentinel
wrappers are there).  It is a boolean flag colocated with a value: `new` is
dirty, mutable access sets the flag, `reset` clears it, and it stores no
address. -/
structure MutCell (T : Type) where
  value : T
  flag : Bool

/-- Modelled from the spec: `new(value) -> Cell` constructs dirty. -/
def MutCell.new (T : Type) (v : T) : MutCell T :=
  ⟨v, true⟩

/-- Modelled from the spec: `was_mutated(&Cell) -> bool`, pure; it consults
only the stored flag, never an address. -/
def MutCell.was_mutated (c : MutCell T) : Bool :=
  c.flag

/-- Modelled from the spec: `reset(&Cell)` clears the flag. -/
def MutCell.reset (c : MutCell T) : MutCell T :=
  ⟨c.value, false⟩

/-- Modelled from the spec: mutable access through the wrapper sets the flag
unconditionally. -/
def MutCell.deref_mut (c : MutCell T) : T × MutCell T :=
  (c.value, ⟨c.value, true⟩)

/-- Modelled from the spec: relocation copies the stored bits verbatim; the
plain cell stores no address ("no relocation awareness"), so moving it to new
storage leaves its state bit-identical. -/
def MutCell.relocate (c : MutCell T) : MutCell T :=
  ⟨c.value, c.flag⟩

/-- The wrapping difference is always below the word size. -/
theorem usizeSub_lt (x y : Nat) : usizeSub x y < WORD := by
  simp only [usizeSub, WORD]
  omega

/-- The offset from a sentinel's anchor field to its own key field is the
fixed layout constant `WORD - ANCHOR_BYTES`, whatever address it sits at. -/
theorem usizeSub_self_key (a : Nat) : usizeSub a (keyFieldAddr a) = WORD - ANCHOR_BYTES := by
  simp only [usizeSub, keyFieldAddr, ANCHOR_BYTES, WORD]
  omega

/-- Distinct in-range addresses have a nonzero wrapping difference. -/
theorem usizeSub_ne_zero {a r : Nat} (ha : a < WORD) (hr : r < WORD) (h : a ≠ r) :
    usizeSub a r ≠ 0 := by
  simp only [usizeSub, WORD] at *
  omega

/-- An in-range external key address that is not the sentinel's own key field
yields an offset different from the self-relative layout constant. -/
theorem usizeSub_ne_selfOff {a r : Nat} (ha : a < WORD) (hr : r < WORD)
    (h : r ≠ keyFieldAddr a) : usizeSub a r ≠ WORD - ANCHOR_BYTES := by
  simp only [usizeSub, keyFieldAddr, ANCHOR_BYTES, WORD] at *
  omega

/-- Translating both endpoints by the same delta preserves the wrapping
difference: moving a (sentinel, key) pair as a unit preserves their offset. -/
theorem usizeSub_shift (x y d : Nat) :
    usizeSub ((x + d) % WORD) ((y + d) % WORD) = usizeSub x y := by
  simp only [usizeSub, WORD]
  omega

/-- `self_offset` never panics: it always returns the layout constant. -/
theorem self_offset_eq (a : Nat) :
    MoveRelMutSentinel.self_offset a = some (WORD - ANCHOR_BYTES) := by
  simp only [MoveRelMutSentinel.self_offset, MoveRelMutSentinel.offset_of,
    usizeSub_self_key]
  simp [WORD, ANCHOR_BYTES]

/-- `offset_of` succeeds on distinct in-range addresses, returning the
wrapping difference. -/
theorem offset_of_eq {a r : Nat} (ha : a < WORD) (hr : r < WORD) (h : a ≠ r) :
    MoveRelMutSentinel.offset_of a r = some (usizeSub a r) := by
  simp [MoveRelMutSentinel.offset_of, usizeSub_ne_zero ha hr h]

/-- A fresh relative sentinel stores the self-relative layout constant and an
uninitialized snapshot, whatever address the temporary occupied. -/
theorem mutated_eq (K : Type) (atmp : Nat) :
    MoveRelMutSentinel.mutated K atmp =
      some ⟨WORD - ANCHOR_BYTES, none⟩ := by
  simp [MoveRelMutSentinel.mutated, self_offset_eq]

/-- Claim C1: if `set_unmutated` ran while the absolute sentinel resided at
address `a`, and its bytes are then relocated verbatim to any `b ≠ a` with no
further writes, `was_moved_or_mutated` returns true. -/
theorem C1_absolute_relocation_detected (K : Type) (s : MoveMutSentinel K) (k : K)
    (a b : Nat) (hab : b ≠ a) :
    (s.set_unmutated k a).was_moved_or_mutated b = true := by
  simp only [MoveMutSentinel.set_unmutated, MoveMutSentinel.was_moved_or_mutated,
    decide_eq_true_eq]
  exact fun h => hab h.symm

/-- Witness for C1 at a concrete input: cleared at address 4096, queried after
relocation to 8192. -/
theorem C1_absolute_relocation_detected_witness :
    ((MoveMutSentinel.set_unmutated (⟨danglingAddr⟩ : MoveMutSentinel Unit) () 4096)
      ).was_moved_or_mutated 8192 = true :=
  C1_absolute_relocation_detected Unit ⟨danglingAddr⟩ () 4096 8192 (by decide)

/-- Claim C2: fresh wrappers are dirty for every value and key type: a fresh
`MoveMutTracker` queried at any live address (never the placeholder) reports
true, and a fresh `MoveRelMutTracker` reports true for every reference key
whose address differs from the sentinel's internal key field. -/
theorem C2_fresh_wrapper_dirty (T K : Type) (v : T)
    (a : Nat) (ha : a ≠ danglingAddr)
    (atmp a2 r : Nat) (ha2 : a2 < WORD) (hr : r < WORD)
    (hrk : r ≠ keyFieldAddr a2) (hra : a2 ≠ r)
    (beq : K → K → Bool) (k : K) :
    (MoveMutTracker.new T K v).was_moved_or_mutated a = true ∧
    (MoveRelMutTracker.new T K v atmp).bind
      (fun t => t.was_moved_or_mutated beq a2 r k) = some true := by
  constructor
  · simp only [MoveMutTracker.new, MoveMutTracker.was_moved_or_mutated,
      MoveMutSentinel.mutated, MoveMutSentinel.was_moved_or_mutated, decide_eq_true_eq]
    exact fun h => ha h.symm
  · have hne := usizeSub_ne_selfOff ha2 hr hrk
    simp [MoveRelMutTracker.new, mutated_eq, MoveRelMutTracker.was_moved_or_mutated,
      MoveRelMutSentinel.was_moved_or_mutated, offset_of_eq ha2 hr hra, Ne.symm hne]

/-- Witness for C2 at a concrete input. -/
theorem C2_fresh_wrapper_dirty_witness :
    (MoveMutTracker.new Nat Nat 0).was_moved_or_mutated 16 = true ∧
    (MoveRelMutTracker.new Nat Nat 0 0).bind
      (fun t => t.was_moved_or_mutated (fun x y => x == y) 4096 4120 7) = some true :=
  C2_fresh_wrapper_dirty Nat Nat 0 16 (by decide) 0 4096 4120 (by decide) (by decide)
    (by decide) (by decide) (fun x y => x == y) 7

/-- Claim C3: immediately after `set_unmutated`, `was_moved_or_mutated` is
false while nothing has relocated: the absolute sentinel queried at the same
address, and the relative sentinel queried with the same key reference (same
address and value) under a reflexive key equality. -/
theorem C3_clean_right_after_clear (K : Type) (sA : MoveMutSentinel K) (k : K) (a : Nat)
    (s2 : MoveRelMutSentinel K) (beq : K → K → Bool) (k2 : K)
    (a2 r : Nat) (ha2 : a2 < WORD) (hr : r < WORD) (hne : a2 ≠ r)
    (hrefl : beq k2 k2 = true) :
    (sA.set_unmutated k a).was_moved_or_mutated a = false ∧
    (s2.set_unmutated a2 r k2).bind
      (fun s => s.was_moved_or_mutated beq a2 r k2) = some false := by
  constructor
  · simp [MoveMutSentinel.set_unmutated, MoveMutSentinel.was_moved_or_mutated]
  · simp [MoveRelMutSentinel.set_unmutated, MoveRelMutSentinel.was_moved_or_mutated,
      offset_of_eq ha2 hr hne, hrefl]

/-- Witness for C3 at a concrete input. -/
theorem C3_clean_right_after_clear_witness :
    ((MoveMutSentinel.set_unmutated (⟨danglingAddr⟩ : MoveMutSentinel Nat) 0 4096)
      ).was_moved_or_mutated 4096 = false ∧
    (MoveRelMutSentinel.set_unmutated (⟨1, none⟩ : MoveRelMutSentinel Nat) 4096 4200 9).bind
      (fun s => s.was_moved_or_mutated (fun x y => x == y) 4096 4200 9) = some false :=
  C3_clean_right_after_clear Nat ⟨danglingAddr⟩ 0 4096 (⟨1, none⟩ : MoveRelMutSentinel Nat)
    (fun x y => x == y) 9 4096 4200 (by decide) (by decide) (by decide) (by decide)

/-- Claim C4: `deref_mut` on either wrapper unconditionally marks the sentinel
mutated as a side effect, so afterwards `was_moved_or_mutated` is true — with
no store at all, with the identical value stored back, or with any other
value. -/
theorem C4_deref_mut_forces_dirty (T K : Type) (t : MoveMutTracker T K) (v : T)
    (a : Nat) (ha : a ≠ danglingAddr)
    (t2 : MoveRelMutTracker T K) (beq : K → K → Bool) (k : K)
    (a2 r : Nat) (ha2 : a2 < WORD) (hr : r < WORD)
    (hrk : r ≠ keyFieldAddr a2) (hra : a2 ≠ r) :
    (t.deref_mut.2.was_moved_or_mutated a = true ∧
     (t.deref_mut.2.store t.deref_mut.1).was_moved_or_mutated a = true ∧
     (t.deref_mut.2.store v).was_moved_or_mutated a = true) ∧
    ((t2.deref_mut a2).bind
       (fun p => p.2.was_moved_or_mutated beq a2 r k) = some true ∧
     (t2.deref_mut a2).bind
       (fun p => (p.2.store p.1).was_moved_or_mutated beq a2 r k) = some true) := by
  have habs : ∀ u : MoveMutTracker T K,
      u.sentinel = t.sentinel.set_mutated → u.was_moved_or_mutated a = true := by
    intro u hu
    simp only [MoveMutTracker.was_moved_or_mutated, hu, MoveMutSentinel.set_mutated,
      MoveMutSentinel.mutated, MoveMutSentinel.was_moved_or_mutated, decide_eq_true_eq]
    exact fun h => ha h.symm
  have hne := usizeSub_ne_selfOff ha2 hr hrk
  refine ⟨⟨habs _ rfl, habs _ rfl, habs _ rfl⟩, ?_, ?_⟩ <;>
    simp [MoveRelMutTracker.deref_mut, MoveRelMutSentinel.set_mutated, self_offset_eq,
      MoveRelMutTracker.store, MoveRelMutTracker.was_moved_or_mutated,
      MoveRelMutSentinel.was_moved_or_mutated, offset_of_eq ha2 hr hra, Ne.symm hne]

/-- Witness for C4 at a concrete input. -/
theorem C4_deref_mut_forces_dirty_witness :
    (((MoveMutTracker.new Nat Nat 5).deref_mut.2.was_moved_or_mutated 16 = true ∧
     ((MoveMutTracker.new Nat Nat 5).deref_mut.2.store
        (MoveMutTracker.new Nat Nat 5).deref_mut.1).was_moved_or_mutated 16 = true ∧
     ((MoveMutTracker.new Nat Nat 5).deref_mut.2.store 5).was_moved_or_mutated 16 = true) ∧
    (((⟨5, ⟨77, some 9⟩⟩ : MoveRelMutTracker Nat Nat).deref_mut 4096).bind
       (fun p => p.2.was_moved_or_mutated (fun x y => x == y) 4096 4120 9) = some true ∧
     ((⟨5, ⟨77, some 9⟩⟩ : MoveRelMutTracker Nat Nat).deref_mut 4096).bind
       (fun p => (p.2.store p.1).was_moved_or_mutated (fun x y => x == y) 4096 4120 9)
         = some true)) :=
  C4_deref_mut_forces_dirty Nat Nat (MoveMutTracker.new Nat Nat 5) 5 16 (by decide)
    (⟨5, ⟨77, some 9⟩⟩ : MoveRelMutTracker Nat Nat) (fun x y => x == y) 9
    4096 4120 (by decide) (by decide) (by decide) (by decide)

/-- Claim C5: with structure A (anchor `a1`, key `k1` at `r1`) and structure B
(anchor `a2`, key `k2` at `r2`) each cleared against its own key, swapping the
two tracker fields makes `was_moved_or_mutated` true for both pairings (the
keys `k1`, `k2` are distinct under the key equality); and after clearing
again, relocating each structure as a unit — sentinel and key shifted by the
same delta, preserving their byte distance — leaves it false. -/
theorem C5_swap_dirty_unit_move_clean (K : Type)
    (sA0 sB0 sA1 sB1 : MoveRelMutSentinel K) (beq : K → K → Bool) (k1 k2 : K)
    (a1 r1 a2 r2 d1 d2 : Nat)
    (ha1 : a1 < WORD) (hr1 : r1 < WORD) (ha2 : a2 < WORD) (hr2 : r2 < WORD)
    (h1 : a1 ≠ r1) (h2 : a2 ≠ r2)
    (hk12 : beq k1 k2 = false) (hk21 : beq k2 k1 = false)
    (hk1 : beq k1 k1 = true) (hk2 : beq k2 k2 = true) :
    ((sB0.set_unmutated a2 r2 k2).bind
       (fun sB => sB.was_moved_or_mutated beq a1 r1 k1) = some true) ∧
    ((sA0.set_unmutated a1 r1 k1).bind
       (fun sA => sA.was_moved_or_mutated beq a2 r2 k2) = some true) ∧
    ((sB1.set_unmutated a1 r1 k1).bind
       (fun s => s.was_moved_or_mutated beq ((a1 + d1) % WORD) ((r1 + d1) % WORD) k1)
         = some false) ∧
    ((sA1.set_unmutated a2 r2 k2).bind
       (fun s => s.was_moved_or_mutated beq ((a2 + d2) % WORD) ((r2 + d2) % WORD) k2)
         = some false) := by
  have swapDirty : ∀ (s0 : MoveRelMutSentinel K) (x y u w : Nat) (ka kb : K),
      x < WORD → y < WORD → u < WORD → w < WORD → x ≠ y → u ≠ w → beq ka kb = false →
      (s0.set_unmutated x y ka).bind
        (fun s => s.was_moved_or_mutated beq u w kb) = some true := by
    intro s0 x y u w ka kb hx hy hu hw hxy huw hab
    by_cases hoff : usizeSub x y = usizeSub u w
    · simp [MoveRelMutSentinel.set_unmutated, MoveRelMutSentinel.was_moved_or_mutated,
        offset_of_eq hx hy hxy, offset_of_eq hu hw huw, hoff, hab]
    · simp [MoveRelMutSentinel.set_unmutated, MoveRelMutSentinel.was_moved_or_mutated,
        offset_of_eq hx hy hxy, offset_of_eq hu hw huw, hoff]
  have unitClean : ∀ (s0 : MoveRelMutSentinel K) (x y d : Nat) (ka : K),
      x < WORD → y < WORD → x ≠ y → beq ka ka = true →
      (s0.set_unmutated x y ka).bind
        (fun s => s.was_moved_or_mutated beq ((x + d) % WORD) ((y + d) % WORD) ka)
          = some false := by
    intro s0 x y d ka hx hy hxy hrefl
    have hnz := usizeSub_ne_zero hx hy hxy
    simp [MoveRelMutSentinel.set_unmutated, MoveRelMutSentinel.was_moved_or_mutated,
      offset_of_eq hx hy hxy, MoveRelMutSentinel.offset_of, usizeSub_shift, hnz, hrefl]
  exact ⟨swapDirty sB0 a2 r2 a1 r1 k2 k1 ha2 hr2 ha1 hr1 h2 h1 hk21,
         swapDirty sA0 a1 r1 a2 r2 k1 k2 ha1 hr1 ha2 hr2 h1 h2 hk12,
         unitClean sB1 a1 r1 d1 k1 ha1 hr1 h1 hk1,
         unitClean sA1 a2 r2 d2 k2 ha2 hr2 h2 hk2⟩

/-- Witness for C5 at a concrete input: A at (4096, key 11 at 4296), B at
(8192, key 22 at 8392), both moved by 64 bytes after the re-clear. -/
theorem C5_swap_dirty_unit_move_clean_witness :
    ((MoveRelMutSentinel.set_unmutated (⟨1, none⟩ : MoveRelMutSentinel Nat) 8192 8392 22).bind
       (fun sB => sB.was_moved_or_mutated (fun x y => x == y) 4096 4296 11) = some true) ∧
    ((MoveRelMutSentinel.set_unmutated (⟨1, none⟩ : MoveRelMutSentinel Nat) 4096 4296 11).bind
       (fun sA => sA.was_moved_or_mutated (fun x y => x == y) 8192 8392 22) = some true) ∧
    ((MoveRelMutSentinel.set_unmutated (⟨1, none⟩ : MoveRelMutSentinel Nat) 4096 4296 11).bind
       (fun s => s.was_moved_or_mutated (fun x y => x == y)
         ((4096 + 64) % WORD) ((4296 + 64) % WORD) 11) = some false) ∧
    ((MoveRelMutSentinel.set_unmutated (⟨1, none⟩ : MoveRelMutSentinel Nat) 8192 8392 22).bind
       (fun s => s.was_moved_or_mutated (fun x y => x == y)
         ((8192 + 64) % WORD) ((8392 + 64) % WORD) 22) = some false) :=
  C5_swap_dirty_unit_move_clean Nat ⟨1, none⟩ ⟨1, none⟩ ⟨1, none⟩ ⟨1, none⟩
    (fun x y => x == y) 11 22 4096 4296 8192 8392 64 64
    (by decide) (by decide) (by decide) (by decide) (by decide) (by decide)
    (by decide) (by decide) (by decide) (by decide)

/-- Claim C6: when the stored offset disagrees with the offset computed to
`ref_key`, `was_moved_or_mutated` returns true without reading the key
snapshot — the result is `some true` for every snapshot state, including the
uninitialized one — so a fresh sentinel's uninitialized snapshot is never
read before `set_unmutated` has initialized it. -/
theorem C6_short_circuit_protects_snapshot (K : Type)
    (s : MoveRelMutSentinel K) (beq : K → K → Bool) (k : K)
    (a r atmp : Nat) (ha : a < WORD) (hr : r < WORD) (hra : a ≠ r)
    (hdis : s.anchor_key_offset ≠ usizeSub a r)
    (hrk : r ≠ keyFieldAddr a) :
    s.was_moved_or_mutated beq a r k = some true ∧
    (MoveRelMutSentinel.mutated K atmp).bind
      (fun s0 => s0.was_moved_or_mutated beq a r k) = some true := by
  have hne := usizeSub_ne_selfOff ha hr hrk
  constructor
  · simp [MoveRelMutSentinel.was_moved_or_mutated, offset_of_eq ha hr hra, hdis]
  · simp [mutated_eq, MoveRelMutSentinel.was_moved_or_mutated,
      offset_of_eq ha hr hra, Ne.symm hne]

/-- Witness for C6 at a concrete input: a sentinel with an uninitialized
snapshot and a mismatched stored offset, and a fresh sentinel. -/
theorem C6_short_circuit_protects_snapshot_witness :
    (⟨3, none⟩ : MoveRelMutSentinel Nat).was_moved_or_mutated
      (fun x y => x == y) 4096 4120 9 = some true ∧
    (MoveRelMutSentinel.mutated Nat 0).bind
      (fun s0 => s0.was_moved_or_mutated (fun x y => x == y) 4096 4120 9) = some true :=
  C6_short_circuit_protects_snapshot Nat ⟨3, none⟩ (fun x y => x == y) 9
    4096 4120 0 (by decide) (by decide) (by decide) (by decide) (by decide)

/-- Claim C7: `change_key::<NK>` re-parameterizes the capability type while
leaving the wrapped value and the sentinel's stored address bits unaltered,
so the flag state is carried forward unchanged at every address, for every
input tracker. -/
theorem C7_change_key_preserves_state (T K NK : Type) (t : MoveMutTracker T K) :
    (t.change_key NK).value = t.value ∧
    (t.change_key NK).sentinel.self_ptr = t.sentinel.self_ptr ∧
    ∀ a : Nat, (t.change_key NK).was_moved_or_mutated a = t.was_moved_or_mutated a :=
  ⟨rfl, rfl, fun _ => rfl⟩

/-- Claim C8: the plain dirty-flag cell (modelled from the spec; absent from
src/) constructs dirty, clears via `reset`, re-dirties on mutable access, and
after a clear stays clean across relocation — it has no relocation awareness —
whereas the absolute sentinel cleared at `a` and relocated to `b ≠ a` reports
dirty after the same move. -/
theorem C8_plain_cell_vs_absolute_sentinel (T K : Type) (v : T) (c : MutCell T)
    (s : MoveMutSentinel K) (k : K) (a b : Nat) (hab : b ≠ a) :
    (MutCell.new T v).was_mutated = true ∧
    c.reset.was_mutated = false ∧
    c.reset.deref_mut.2.was_mutated = true ∧
    c.reset.relocate.was_mutated = false ∧
    (s.set_unmutated k a).was_moved_or_mutated b = true := by
  refine ⟨rfl, rfl, rfl, rfl, ?_⟩
  simp only [MoveMutSentinel.set_unmutated, MoveMutSentinel.was_moved_or_mutated,
    decide_eq_true_eq]
  exact fun h => hab h.symm

/-- Witness for C8 at a concrete input: the §8 scenario's final move, with the
plain cell still clean and the absolute sentinel dirty. -/
theorem C8_plain_cell_vs_absolute_sentinel_witness :
    (MutCell.new Nat 0).was_mutated = true ∧
    (MutCell.new Nat 0).reset.was_mutated = false ∧
    (MutCell.new Nat 0).reset.deref_mut.2.was_mutated = true ∧
    (MutCell.new Nat 0).reset.relocate.was_mutated = false ∧
    ((MoveMutSentinel.set_unmutated (⟨danglingAddr⟩ : MoveMutSentinel Nat) 0 4096)
      ).was_moved_or_mutated 8192 = true :=
  C8_plain_cell_vs_absolute_sentinel Nat Nat 0 (MutCell.new Nat 0) ⟨danglingAddr⟩ 0
    4096 8192 (by decide)

/-- Claim C9: cloning yields a dirty tracker: `MoveMutTracker::clone` copies
the sentinel's stored address bits verbatim, so a clone of a clean tracker
(stored address `a`), living at a different address `b`, reports true; and
`clone_from` on either tracker marks the destination's sentinel mutated
before copying the value across. -/
theorem C9_clone_is_dirty (T K : Type) (t src : MoveMutTracker T K)
    (t2 src2 : MoveRelMutTracker T K) (beq : K → K → Bool) (k : K)
    (a b c : Nat) (hclean : t.sentinel.self_ptr = a) (hb : b ≠ a)
    (hc : c ≠ danglingAddr)
    (a2 r : Nat) (ha2 : a2 < WORD) (hr : r < WORD)
    (hrk : r ≠ keyFieldAddr a2) (hra : a2 ≠ r) :
    t.clone.sentinel.self_ptr = t.sentinel.self_ptr ∧
    t.clone.was_moved_or_mutated b = true ∧
    (t.clone_from src).value = src.value ∧
    (t.clone_from src).was_moved_or_mutated c = true ∧
    (t2.clone_from src2 a2).bind
      (fun u => u.was_moved_or_mutated beq a2 r k) = some true ∧
    (t2.clone_from src2 a2).map (fun u => u.value) = some src2.value := by
  have hne := usizeSub_ne_selfOff ha2 hr hrk
  refine ⟨rfl, ?_, rfl, ?_, ?_, ?_⟩
  · simp only [MoveMutTracker.clone, MoveMutSentinel.clone,
      MoveMutTracker.was_moved_or_mutated, MoveMutSentinel.was_moved_or_mutated,
      hclean, decide_eq_true_eq]
    exact fun h => hb h.symm
  · simp only [MoveMutTracker.clone_from, MoveMutSentinel.set_mutated,
      MoveMutSentinel.mutated, MoveMutTracker.was_moved_or_mutated,
      MoveMutSentinel.was_moved_or_mutated, decide_eq_true_eq]
    exact fun h => hc h.symm
  · simp [MoveRelMutTracker.clone_from, MoveRelMutSentinel.set_mutated, self_offset_eq,
      MoveRelMutTracker.was_moved_or_mutated, MoveRelMutSentinel.was_moved_or_mutated,
      offset_of_eq ha2 hr hra, Ne.symm hne]
  · simp [MoveRelMutTracker.clone_from, MoveRelMutSentinel.set_mutated, self_offset_eq]

/-- Witness for C9 at a concrete input: a clean tracker at 4096 cloned and
queried at 8192, and `clone_from` on both tracker kinds. -/
theorem C9_clone_is_dirty_witness :
    (⟨5, ⟨4096⟩⟩ : MoveMutTracker Nat Nat).clone.sentinel.self_ptr =
      (⟨5, ⟨4096⟩⟩ : MoveMutTracker Nat Nat).sentinel.self_ptr ∧
    (⟨5, ⟨4096⟩⟩ : MoveMutTracker Nat Nat).clone.was_moved_or_mutated 8192 = true ∧
    ((⟨5, ⟨4096⟩⟩ : MoveMutTracker Nat Nat).clone_from ⟨6, ⟨16⟩⟩).value =
      (⟨6, ⟨16⟩⟩ : MoveMutTracker Nat Nat).value ∧
    ((⟨5, ⟨4096⟩⟩ : MoveMutTracker Nat Nat).clone_from ⟨6, ⟨16⟩⟩
      ).was_moved_or_mutated 4096 = true ∧
    ((⟨5, ⟨77, some 9⟩⟩ : MoveRelMutTracker Nat Nat).clone_from ⟨6, ⟨88, some 9⟩⟩ 4096).bind
      (fun u => u.was_moved_or_mutated (fun x y => x == y) 4096 4120 9) = some true ∧
    ((⟨5, ⟨77, some 9⟩⟩ : MoveRelMutTracker Nat Nat).clone_from ⟨6, ⟨88, some 9⟩⟩ 4096).map
      (fun u => u.value) = some (⟨6, ⟨88, some 9⟩⟩ : MoveRelMutTracker Nat Nat).value :=
  C9_clone_is_dirty Nat Nat ⟨5, ⟨4096⟩⟩ ⟨6, ⟨16⟩⟩ ⟨5, ⟨77, some 9⟩⟩ ⟨6, ⟨88, some 9⟩⟩
    (fun x y => x == y) 9 4096 8192 4096 rfl (by decide) (by decide)
    4096 4120 (by decide) (by decide) (by decide) (by decide)

/-- Claim C10: the `NonZeroUsize::new(..).unwrap()` calls never panic: under
the `repr(C)` layout the anchor field precedes the key field so `self_offset`
always returns the nonzero layout constant, and for every external reference
key whose address differs from the anchor field's, `offset_of` succeeds — so
`mutated`, `set_mutated` and `set_unmutated` all succeed there too. -/
theorem C10_offset_unwrap_never_panics (K : Type) (s : MoveRelMutSentinel K) (k : K)
    (a r atmp : Nat) (ha : a < WORD) (hr : r < WORD) (hra : a ≠ r) :
    MoveRelMutSentinel.self_offset a = some (WORD - ANCHOR_BYTES) ∧
    (MoveRelMutSentinel.offset_of a r).isSome = true ∧
    (MoveRelMutSentinel.mutated K atmp).isSome = true ∧
    (s.set_mutated a).isSome = true ∧
    (s.set_unmutated a r k).isSome = true := by
  refine ⟨self_offset_eq a, ?_, ?_, ?_, ?_⟩
  · simp [offset_of_eq ha hr hra]
  · simp [mutated_eq]
  · simp [MoveRelMutSentinel.set_mutated, self_offset_eq]
  · simp [MoveRelMutSentinel.set_unmutated, offset_of_eq ha hr hra]

/-- Witness for C10 at a concrete input. -/
theorem C10_offset_unwrap_never_panics_witness :
    MoveRelMutSentinel.self_offset 4096 = some (WORD - ANCHOR_BYTES) ∧
    (MoveRelMutSentinel.offset_of 4096 4120).isSome = true ∧
    (MoveRelMutSentinel.mutated Nat 0).isSome = true ∧
    ((⟨3, none⟩ : MoveRelMutSentinel Nat).set_mutated 4096).isSome = true ∧
    ((⟨3, none⟩ : MoveRelMutSentinel Nat).set_unmutated 4096 4120 9).isSome = true :=
  C10_offset_unwrap_never_panics Nat ⟨3, none⟩ 9 4096 4120 0
    (by decide) (by decide) (by decide)
